import Mathlib

/-!
Verification of the scoring engine of score.py.

The script scores documents against a weighted rubric.  Its inputs are
parsed JSON values, modelled here by the inductive type JVal; Python
floats are modelled as exact rationals (binary floating-point rounding is
not modelled; every claim checked below is robust to that choice because
the engine caps its multiplier at 1 and clamps the final score).
Fallible Python operations (float(x), int(x), len(x), membership tests,
attribute access) are modelled as Except computations over the error kind
PyErr, so that an uncaught Python exception corresponds to Except.error.
-/

/-- A parsed JSON value, the shape of every input the script consumes. -/
inductive JVal where
  | null
  | bool (b : Bool)
  | int (n : Int)
  | float (q : ℚ)
  | str (s : String)
  | list (xs : List JVal)
  | obj (kvs : List (String × JVal))

/-- The kinds of Python exception the modelled operations can raise. -/
inductive PyErr where
  | typeError
  | valueError
deriving DecidableEq

/-- Source clamp (line 26): max(lo, min(hi, n)). -/
def clamp (n lo hi : Int) : Int := max lo (min hi n)

/-- Python truthiness of a JSON value (used by the source's x or [] idiom
and by the policy loader's id check). -/
def truthy : JVal → Bool
  | .null => false
  | .bool b => b
  | .int n => n != 0
  | .float q => q != 0
  | .str s => !s.isEmpty
  | .list xs => !xs.isEmpty
  | .obj kvs => !kvs.isEmpty

/-- The source idiom x or []: a falsy value is replaced by the empty list. -/
def orEmptyList (v : JVal) : JVal := if truthy v then v else JVal.list []

/-- Python dict.get(k, d): the stored value when the key is present (even
when that value is null), otherwise the default.  JSON objects have unique
keys, so first-match lookup is faithful. -/
def getD (kvs : List (String × JVal)) (k : String) (d : JVal) : JVal :=
  match kvs.find? (fun kv => kv.1 == k) with
  | some kv => kv.2
  | none => d

/-- Python str.strip: drop leading and trailing whitespace. -/
def pyStrip (cs : List Char) : List Char :=
  ((cs.dropWhile (fun c => c.isWhitespace)).reverse.dropWhile
    (fun c => c.isWhitespace)).reverse

/-- The first list starts the second. -/
def leadsWith : List Char → List Char → Bool
  | [], _ => true
  | _ :: _, [] => false
  | a :: as, b :: bs => a == b && leadsWith as bs

/-- The needle occurs somewhere in the haystack (Python substring in). -/
def hasRun (needle : List Char) : List Char → Bool
  | [] => leadsWith needle []
  | c :: rest => leadsWith needle (c :: rest) || hasRun needle rest

/-- All characters are decimal digits. -/
def allDigits (cs : List Char) : Bool := cs.all (fun c => c.isDigit)

/-- The number denoted by a digit string. -/
def digitsVal (cs : List Char) : Nat :=
  cs.foldl (fun a c => a * 10 + (c.toNat - 48)) 0

/-- Split a character list at the first dot, when one occurs. -/
def splitDot : List Char → List Char × Option (List Char)
  | [] => ([], none)
  | c :: rest =>
    if c = '.' then ([], some rest)
    else
      let r := splitDot rest
      (c :: r.1, r.2)

/-- An unsigned decimal literal, integer part and optional fraction part
(at least one digit overall, as Python float parsing requires). -/
def parsePosDec (cs : List Char) : Option ℚ :=
  match splitDot cs with
  | (ip, none) =>
    if !ip.isEmpty && allDigits ip then some (digitsVal ip) else none
  | (ip, some fp) =>
    if allDigits ip && allDigits fp && (!ip.isEmpty || !fp.isEmpty) then
      some ((digitsVal ip : ℚ) + (digitsVal fp : ℚ) / ((10 : ℚ) ^ fp.length))
    else none

/-- Python float(s) on a string: strip whitespace, optional sign, decimal
literal.  (Exponent, inf, nan and underscore forms of the Python grammar
are not modelled; no claim depends on them.) -/
def parseDec (s : String) : Option ℚ :=
  match pyStrip s.toList with
  | [] => none
  | c :: rest =>
    if c = '-' then (parsePosDec rest).map (fun q => -q)
    else if c = '+' then parsePosDec rest
    else parsePosDec (c :: rest)

/-- All-digit nonempty run parsed as a natural number. -/
def parseDigits (cs : List Char) : Option Nat :=
  if !cs.isEmpty && allDigits cs then some (digitsVal cs) else none

/-- Python int(s) on a string: strip whitespace, optional sign, digits
only (a dot makes it fail, unlike float parsing). -/
def parseIntStr (s : String) : Option Int :=
  match pyStrip s.toList with
  | [] => none
  | c :: rest =>
    if c = '-' then (parseDigits rest).map (fun n => -(n : Int))
    else if c = '+' then (parseDigits rest).map (fun n => (n : Int))
    else (parseDigits (c :: rest)).map (fun n => (n : Int))

/-- Python float(x): numbers and booleans convert, numeric strings parse
(ValueError otherwise), anything else raises TypeError. -/
def pyFloat : JVal → Except PyErr ℚ
  | .bool b => .ok (if b then 1 else 0)
  | .int n => .ok (n : ℚ)
  | .float q => .ok q
  | .str s =>
    match parseDec s with
    | some q => .ok q
    | none => .error .valueError
  | _ => .error .typeError

/-- Truncation of a rational toward zero, as Python int(float) does. -/
def ratTrunc (q : ℚ) : Int := if 0 ≤ q then ⌊q⌋ else -⌊-q⌋

/-- Python int(x): numbers and booleans convert (floats truncate toward
zero), integer-literal strings parse (ValueError otherwise), anything
else raises TypeError. -/
def pyInt : JVal → Except PyErr Int
  | .bool b => .ok (if b then 1 else 0)
  | .int n => .ok n
  | .float q => .ok (ratTrunc q)
  | .str s =>
    match parseIntStr s with
    | some n => .ok n
    | none => .error .valueError
  | _ => .error .typeError

/-- A numeric JSON value as a rational (Python addition inside sum
accepts booleans and numbers, nothing else). -/
def numVal : JVal → Option ℚ
  | .bool b => some (if b then 1 else 0)
  | .int n => some (n : ℚ)
  | .float q => some q
  | _ => none

/-- Python len(x): sized values only, TypeError otherwise. -/
def pyLen : JVal → Except PyErr Nat
  | .str s => .ok s.length
  | .list xs => .ok xs.length
  | .obj kvs => .ok kvs.length
  | _ => .error .typeError

/-- Python membership s in v for a nonempty string s: equality scan on a
list (a string equals only a string), substring test on a string, key
test on a dict, TypeError otherwise. -/
def pyInStr (s : String) (v : JVal) : Except PyErr Bool :=
  match v with
  | .list xs =>
    .ok (xs.any (fun x => match x with | .str t => t == s | _ => false))
  | .str hay => .ok (hasRun s.toList hay.toList)
  | .obj kvs => .ok (kvs.any (fun kv => kv.1 == s))
  | _ => .error .typeError

/-- Python sum over a JSON list: adds numbers and booleans, raises
TypeError on any other element. -/
def sumNums : List JVal → Option ℚ
  | [] => some 0
  | x :: xs =>
    match numVal x, sumNums xs with
    | some a, some b => some (a + b)
    | _, _ => none

/-- Source lines 81-85: quote_qualities = ev.get(...) or []; the mean of
the list when nonempty (element-wise TypeError for non-numbers), else 0. -/
def avgQuoteQuality (v : JVal) : Except PyErr ℚ :=
  if truthy v then
    match v with
    | .list xs =>
      match sumNums xs with
      | some s => .ok (s / (xs.length : ℚ))
      | none => .error .typeError
    | _ => .error .typeError
  else .ok 0

/-- Source lines 94-101: the evidence-type factor, 1.0 plus 0.2 for
Empirical Data, 0.1 for Normative Claim, 0.15 for Case Study, each
membership test performed in that order. -/
def evTypeFactor (v : JVal) : Except PyErr ℚ :=
  match pyInStr "Empirical Data" v, pyInStr "Normative Claim" v,
        pyInStr "Case Study" v with
  | .ok e1, .ok e2, .ok e3 =>
    .ok (1 + (if e1 then 1/5 else 0) + (if e2 then 1/10 else 0)
           + (if e3 then 3/20 else 0))
  | .error e, _, _ => .error e
  | .ok _, .error e, _ => .error e
  | .ok _, .ok _, .error e => .error e

/-- Python round(x): round half to even. -/
def pyRound (q : ℚ) : Int :=
  let f := ⌊q⌋
  let frac := q - (f : ℚ)
  if frac < 1/2 then f
  else if 1/2 < frac then f + 1
  else if f % 2 = 0 then f else f + 1

/-- Source lines 103-109: the composed multiplier: confidence times
average quote quality over 5, plus notes quality over 10, plus the quote
count bonus capped at 0.25, times the type factor, capped at 1. -/
def multiplierOf (pc avg : ℚ) (nq : Int) (numQuotes : Nat) (factor : ℚ) : ℚ :=
  min ((pc * (avg / 5) + (nq : ℚ) / 10
        + min ((1/20 : ℚ) * (numQuotes : ℚ)) (1/4)) * factor) 1

/-- Source lines 71-112, compute_score(weight, ev): the Extended-mode
scoring engine.  Field reads happen in source order (confidence, quote
quality, notes quality, quote count, evidence types), so the first failing
coercion determines the raised exception; the confidence short-circuit at
line 77-78 precedes every other read. -/
def compute_score (weight : Int) (ev : JVal) : Except PyErr Int :=
  match ev with
  | .obj kvs =>
    match pyFloat (getD kvs "present_confidence" (JVal.int 0)) with
    | .error e => .error e
    | .ok pc =>
      if pc ≤ 0 then .ok 0
      else
        match avgQuoteQuality (getD kvs "quote_quality" JVal.null) with
        | .error e => .error e
        | .ok avg =>
          match pyInt (getD kvs "notes_quality" (JVal.int 0)) with
          | .error e => .error e
          | .ok nq =>
            match pyLen (orEmptyList (getD kvs "quotes_or_pointers" JVal.null)) with
            | .error e => .error e
            | .ok numQuotes =>
              match evTypeFactor (orEmptyList (getD kvs "evidence_type" JVal.null)) with
              | .error e => .error e
              | .ok factor =>
                .ok (clamp (pyRound ((weight : ℚ) * multiplierOf pc avg nq numQuotes factor)) 0 weight)
  | _ => .ok 0

/-- Override lookup over.get(cid, None) followed by the source's
if override is not None test (line 150): a stored JSON null behaves
exactly like an absent key. -/
def getOpt (kvs : List (String × JVal)) (k : String) : Option JVal :=
  match kvs.find? (fun kv => kv.1 == k) with
  | some kv => match kv.2 with
    | .null => none
    | v => some v
  | none => none

/-- Source lines 150-158: the per-criterion score.  With an override the
engine is bypassed: int(override) clamped into [0, weight], and 0 when
the coercion raises (the except branch at line 153-154).  Without one the
Extended engine runs. -/
def criterionScore (weight : Int) (ev : JVal) (override : Option JVal) :
    Except PyErr Int :=
  match override with
  | some ov =>
    .ok (match pyInt ov with
         | .ok v => clamp v 0 weight
         | .error _ => 0)
  | none => compute_score weight ev

/-- Source lines 144-161: the aggregation loop over the criterion list
(criteria carry the id and the already-coerced integer weight), returning
the per-criterion scores in order and their running sum. -/
def scoreCriteria (criteria : List (String × Int))
    (evall over : List (String × JVal)) : Except PyErr (List Int × Int) :=
  match criteria with
  | [] => .ok ([], 0)
  | (cid, w) :: rest =>
    match criterionScore w (getD evall cid (JVal.obj [])) (getOpt over cid) with
    | .error e => .error e
    | .ok s =>
      match scoreCriteria rest evall over with
      | .error e => .error e
      | .ok (ss, t) => .ok (s :: ss, t + s)

/-- Source lines 178-182: the total override is applied as int(value); a
coercion failure is swallowed (except: pass) and the computed sum kept. -/
def applyTotalOverride (total : Int) (tov : Option JVal) : Int :=
  match tov with
  | none => total
  | some t =>
    match pyInt t with
    | .ok n => n
    | .error _ => total

/-- A whole document: criterion scores summed, then the total override. -/
def documentTotal (criteria : List (String × Int))
    (evall over : List (String × JVal)) (tov : Option JVal) :
    Except PyErr Int :=
  match scoreCriteria criteria evall over with
  | .error e => .error e
  | .ok (_, total) => .ok (applyTotalOverride total tov)

/-- Source lines 12-24: the built-in default rubric. -/
def DEFAULT_RUBRIC : JVal :=
  JVal.obj
    [("criteria", JVal.list
       [JVal.obj [("id", JVal.str "real_time_transparency"),
                  ("name", JVal.str "Real-Time Transparency"),
                  ("weight", JVal.int 15)],
        JVal.obj [("id", JVal.str "explainability"),
                  ("name", JVal.str "Explainability"),
                  ("weight", JVal.int 15)],
        JVal.obj [("id", JVal.str "accountability"),
                  ("name", JVal.str "Accountability"),
                  ("weight", JVal.int 15)],
        JVal.obj [("id", JVal.str "human_oversight"),
                  ("name", JVal.str "Human Oversight"),
                  ("weight", JVal.int 10)],
        JVal.obj [("id", JVal.str "privacy"),
                  ("name", JVal.str "Privacy"),
                  ("weight", JVal.int 15)],
        JVal.obj [("id", JVal.str "data_protection"),
                  ("name", JVal.str "Data Protection"),
                  ("weight", JVal.int 15)],
        JVal.obj [("id", JVal.str "continuous_ethics_monitoring"),
                  ("name", JVal.str "Continuous Ethical Monitoring (Lifecycle Governance)"),
                  ("weight", JVal.int 15)]]),
     ("allow_partial_scoring", JVal.bool true),
     ("partial_ratio", JVal.float (1/2))]

/-- Only hashable values can enter the seen set of the policy loader;
lists and dicts raise TypeError at seen.add / membership. -/
def hashable : JVal → Bool
  | .list _ => false
  | .obj _ => false
  | _ => true

/-- Python equality between hashable JSON values: numbers and booleans
compare numerically, strings as strings, null only to null. -/
def pyEq : JVal → JVal → Bool
  | .str s, .str t => s == t
  | .null, .null => true
  | a, b =>
    match numVal a, numVal b with
    | some x, some y => decide (x = y)
    | _, _ => false

/-- Source lines 47-61, one pass of the validation loop: the id must be
truthy and unseen, the weight integer-coercible and non-negative.  When
int(w) raises, w keeps its non-numeric value and the very next line
compares it with 0, which raises TypeError (in the model every
non-numeric value fails pyInt and also fails that comparison; Python
inf/nan floats, which escape it, are outside the JVal model).  Returns
the grown seen set and whether this criterion passed. -/
def validateCriterion (seen : List JVal) (c : JVal) :
    Except PyErr (List JVal × Bool) :=
  match c with
  | .obj kvs =>
    let cid := getD kvs "id" JVal.null
    if hashable cid then
      let idOk := truthy cid && !(seen.any (pyEq cid))
      let seen2 := seen ++ [cid]
      match pyInt (getD kvs "weight" (JVal.int 0)) with
      | .ok wi => .ok (seen2, idOk && decide (0 ≤ wi))
      | .error _ => .error .typeError
    else .error .typeError
  | _ => .error .typeError

/-- The whole validation loop, threading the seen set and the sticky
valid flag. -/
def validateCriteria (seen : List JVal) (valid : Bool) :
    List JVal → Except PyErr Bool
  | [] => .ok valid
  | c :: rest =>
    match validateCriterion seen c with
    | .error e => .error e
    | .ok (seen2, ok1) => validateCriteria seen2 (valid && ok1) rest

/-- Source lines 36-66, load_policy on the parsed policy file: none
stands for an absent or unparseable file (the try/except at lines 38-43),
which yields the default.  A present policy is validated criterion by
criterion; an invalid or empty criteria list falls back to the default,
otherwise the policy is returned as-is.  (A policy value or criteria
value of non-dict/non-list shape crashes the loop in CPython and is
modelled as an error.) -/
def load_policy (input : Option JVal) : Except PyErr JVal :=
  match input with
  | none => .ok DEFAULT_RUBRIC
  | some p =>
    match p with
    | .obj kvs =>
      match getD kvs "criteria" (JVal.list []) with
      | .list cs =>
        match validateCriteria [] true cs with
        | .error e => .error e
        | .ok valid =>
          if !valid || cs.isEmpty then .ok DEFAULT_RUBRIC else .ok p
      | _ => .error .typeError
    | _ => .error .typeError

/-- Source line 191: the tabular row kept for each document. -/
structure ScoreRow where
  paper_id : String
  detail : List (String × Int)
  total_score : Int

/-- Stable insertion of a row into a descending-sorted list: the new row
goes before the first strictly smaller total, after every equal one. -/
def insertDesc (x : ScoreRow) : List ScoreRow → List ScoreRow
  | [] => [x]
  | y :: ys =>
    if y.total_score ≤ x.total_score then x :: y :: ys
    else y :: insertDesc x ys

/-- Source line 205, sorted(rows, key=total_score, reverse=True): Python
sorted is stable and reverse=True keeps equal elements in input order, so
it computes exactly this stable descending insertion sort. -/
def rows_sorted : List ScoreRow → List ScoreRow
  | [] => []
  | x :: xs => insertDesc x (rows_sorted xs)

/-- Source line 206: the top five rows of the sorted list. -/
def top5 (rows : List ScoreRow) : List ScoreRow := (rows_sorted rows).take 5

/-- Source lines 29-34, _normalize_quotes: a list keeps its primitive
entries rendered as strings (Python counts booleans as ints), a single
primitive is wrapped, anything else becomes the empty list.  The exact
rendered text of numbers is irrelevant to every claim; toString stands in
for Python str(). -/
def normalize_quotes (x : JVal) : List String :=
  match x with
  | .list xs =>
    xs.filterMap (fun i =>
      match i with
      | .str s => some s
      | .int n => some (toString n)
      | .float q => some (toString q)
      | .bool b => some (if b then "True" else "False")
      | _ => none)
  | .str s => [s]
  | .int n => [toString n]
  | .float q => [toString q]
  | .bool b => [if b then "True" else "False"]
  | _ => []

/-- Modelled from the spec: the Basic-mode scoring engine of section 4.2,
whose near-duplicate source variant is part of the repository but not
under src/ (src/score.py wires up only the Extended engine).  Full credit
with reason explicit evidence when present is exactly true; otherwise,
when partial scoring is allowed and the record shows implicit evidence
(nonempty normalized quotes, or trimmed assessor notes of at least 10
characters), round(weight times ratio) with reason implicit/weak
evidence; otherwise 0 with reason no evidence. -/
def compute_score_basic (weight : Int) (ev : JVal) (ap : Bool) (ratio : ℚ) :
    Int × String :=
  match ev with
  | .obj kvs =>
    match getD kvs "present" JVal.null with
    | .bool true => (weight, "explicit evidence")
    | _ =>
      let quotes := normalize_quotes (getD kvs "quotes_or_pointers" JVal.null)
      let notesLen :=
        match getD kvs "assessor_notes" JVal.null with
        | .str s => (pyStrip s.toList).length
        | _ => 0
      if ap && (!quotes.isEmpty || decide (10 ≤ notesLen)) then
        (pyRound ((weight : ℚ) * ratio), "implicit/weak evidence")
      else (0, "no evidence")
  | _ => (0, "no evidence")

/-! ## Helper lemmas -/

theorem clamp_mem (n w : Int) (hw : 0 ≤ w) : 0 ≤ clamp n 0 w ∧ clamp n 0 w ≤ w :=
  ⟨le_max_left 0 _, max_le hw (min_le_left w n)⟩

/-- The Extended engine on a record, expressed through the results of its
five field coercions. -/
theorem compute_score_obj_eq (w : Int) (kvs : List (String × JVal))
    (pc avg : ℚ) (nq : Int) (numQuotes : Nat) (factor : ℚ)
    (h1 : pyFloat (getD kvs "present_confidence" (JVal.int 0)) = .ok pc)
    (hpc : ¬ pc ≤ 0)
    (h2 : avgQuoteQuality (getD kvs "quote_quality" JVal.null) = .ok avg)
    (h3 : pyInt (getD kvs "notes_quality" (JVal.int 0)) = .ok nq)
    (h4 : pyLen (orEmptyList (getD kvs "quotes_or_pointers" JVal.null)) = .ok numQuotes)
    (h5 : evTypeFactor (orEmptyList (getD kvs "evidence_type" JVal.null)) = .ok factor) :
    compute_score w (JVal.obj kvs)
      = .ok (clamp (pyRound ((w : ℚ) * multiplierOf pc avg nq numQuotes factor)) 0 w) := by
  simp only [compute_score, h1, h2, h3, h4, h5, if_neg hpc]

/-- Every score the Extended engine returns lies in [0, weight]. -/
theorem compute_score_bound (w : Int) (ev : JVal) (s : Int) (hw : 0 ≤ w)
    (h : compute_score w ev = .ok s) : 0 ≤ s ∧ s ≤ w := by
  cases ev <;> simp only [compute_score] at h
  case obj kvs =>
    split at h
    · exact absurd h (by simp)
    · split at h
      · injection h with h; subst h; exact ⟨le_refl 0, hw⟩
      · split at h
        · exact absurd h (by simp)
        · split at h
          · exact absurd h (by simp)
          · split at h
            · exact absurd h (by simp)
            · split at h
              · exact absurd h (by simp)
              · injection h with h; subst h; exact clamp_mem _ _ hw
  all_goals (injection h with h; subst h; exact ⟨le_refl 0, hw⟩)

/-! ## Claims -/

/-- Claim C1: for every criterion weight w greater or equal 0, every
evidence record of any shape, and whether or not an override is present,
any per-criterion score s the scoring loop produces satisfies
0 less-equal s less-equal w (overrides are clamped, not trusted raw). -/
theorem c1_score_bounded (w : Int) (ev : JVal) (ov : Option JVal) (s : Int)
    (hw : 0 ≤ w) (h : criterionScore w ev ov = .ok s) : 0 ≤ s ∧ s ≤ w := by
  cases ov with
  | none => exact compute_score_bound w ev s hw h
  | some ov =>
    simp only [criterionScore] at h
    injection h with h
    subst h
    cases hpi : pyInt ov with
    | ok v => exact clamp_mem _ _ hw
    | error e => exact ⟨le_refl 0, hw⟩

/-- Witness for C1 at weight 15, evidence with present true and no
confidence field, no override: the produced score 0 is within bounds. -/
theorem c1_score_bounded_witness : (0 : Int) ≤ 0 ∧ (0 : Int) ≤ 15 :=
  c1_score_bounded 15 (JVal.obj [("present", JVal.bool true)]) none 0
    (by norm_num) rfl

/-- Claim C2 (spec-modelled Basic mode): weight 15 and evidence with
present exactly true give score 15, full credit equal to the weight, with
the reason marking explicit evidence, for every rubric setting. -/
theorem c2_present_full_credit (ap : Bool) (ratio : ℚ) :
    compute_score_basic 15 (JVal.obj [("present", JVal.bool true)]) ap ratio
      = (15, "explicit evidence") := rfl

/-- Claim C3: when the evidence value is not a record, or its
present_confidence read as a float (absent defaulting to 0) is at most 0,
the Extended-mode score is exactly 0 whatever the other fields hold. -/
theorem c3_zero_confidence_zero_score (w : Int) (ev : JVal)
    (h : (∀ kvs, ev ≠ JVal.obj kvs) ∨
         ∃ kvs pc, ev = JVal.obj kvs ∧
           pyFloat (getD kvs "present_confidence" (JVal.int 0)) = .ok pc ∧ pc ≤ 0) :
    compute_score w ev = .ok 0 := by
  rcases h with h | ⟨kvs, pc, rfl, hpf, hpc⟩
  · cases ev <;> first | rfl | exact absurd rfl (h _)
  · simp only [compute_score, hpf, if_pos hpc]

/-- Witness for C3 at weight 7 and evidence carrying confidence 0 but
rich other fields: the score is 0. -/
theorem c3_zero_confidence_zero_score_witness :
    compute_score 7 (JVal.obj [("present_confidence", JVal.int 0),
      ("quote_quality", JVal.list [JVal.int 5])]) = .ok 0 :=
  c3_zero_confidence_zero_score 7
    (JVal.obj [("present_confidence", JVal.int 0),
      ("quote_quality", JVal.list [JVal.int 5])])
    (Or.inr ⟨_, 0, rfl, rfl, le_refl 0⟩)

/-- The evidence record of the C4 scenario. -/
def evC4 : List (String × JVal) :=
  [("present_confidence", JVal.float (4/5)),
   ("quote_quality", JVal.list [JVal.int 4, JVal.int 5]),
   ("notes_quality", JVal.int 3),
   ("quotes_or_pointers", JVal.list [JVal.str "a", JVal.str "b"]),
   ("evidence_type", JVal.list [JVal.str "Empirical Data"])]

/-- Claim C4: on weight 10 with confidence 0.8, quote qualities 4 and 5,
notes quality 3, two quotes and the Empirical Data tag, the multiplier
0.8 times 0.9 plus 0.3 plus 0.10, times 1.2, reaches 1.344, is capped at
1, and the Extended-mode score is exactly 10. -/
theorem c4_scenario_full_score : compute_score 10 (JVal.obj evC4) = .ok 10 := by
  have h1 : pyFloat (getD evC4 "present_confidence" (JVal.int 0))
      = .ok (4/5 : ℚ) := rfl
  have h2 : avgQuoteQuality (getD evC4 "quote_quality" JVal.null)
      = .ok (9/2 : ℚ) := by
    rw [show avgQuoteQuality (getD evC4 "quote_quality" JVal.null)
        = .ok ((((4:Int):ℚ) + (((5:Int):ℚ) + 0)) / ((2:Nat):ℚ)) from rfl]
    norm_num
  have h5 : evTypeFactor (orEmptyList (getD evC4 "evidence_type" JVal.null))
      = .ok (6/5 : ℚ) := by
    rw [show evTypeFactor (orEmptyList (getD evC4 "evidence_type" JVal.null))
        = .ok (1 + (1/5 : ℚ) + 0 + 0) from rfl]
    norm_num
  rw [compute_score_obj_eq 10 evC4 (4/5) (9/2) 3 2 (6/5) h1 (by norm_num) h2 rfl rfl h5]
  have hm : multiplierOf (4/5) (9/2) 3 2 (6/5) = 1 := by
    norm_num [multiplierOf, min_def]
  rw [hm]
  have h10 : ((10:Int):ℚ) * 1 = 10 := by norm_num
  rw [h10]
  have hr : pyRound (10:ℚ) = 10 := by norm_num [pyRound]
  rw [hr]
  rfl

/-- Claim C5: a present override that coerces to an integer v with
0 less-equal v less-equal w makes the per-criterion score exactly v, and
the scoring engine is never consulted (the result is the same for every
evidence record); an override whose coercion raises gives score 0. -/
theorem c5_override_wins (w : Int) (ev : JVal) (ov : JVal) (v : Int)
    (h : (pyInt ov = .ok v ∧ 0 ≤ v ∧ v ≤ w) ∨
         ((∃ e, pyInt ov = .error e) ∧ v = 0)) :
    criterionScore w ev (some ov) = .ok v ∧
      ∀ ev2, criterionScore w ev2 (some ov) = criterionScore w ev (some ov) := by
  constructor
  · rcases h with ⟨hok, h0, hvw⟩ | ⟨⟨e, herr⟩, rfl⟩
    · simp only [criterionScore, hok]
      rw [show clamp v 0 w = v by
        unfold clamp; rw [min_eq_right hvw, max_eq_right h0]]
    · simp only [criterionScore, herr]
  · intro ev2; simp only [criterionScore]

/-- Witness for C5: override 7 on weight 10 scores exactly 7 even though
the underlying evidence would make the engine raise, and a non-coercible
override string scores 0. -/
theorem c5_override_wins_witness :
    criterionScore 10 (JVal.obj [("present_confidence", JVal.str "boom")])
        (some (JVal.int 7)) = .ok 7 ∧
      criterionScore 10 (JVal.obj []) (some (JVal.str "zz")) = .ok 0 :=
  ⟨(c5_override_wins 10 (JVal.obj [("present_confidence", JVal.str "boom")])
      (JVal.int 7) 7 (Or.inl ⟨rfl, by norm_num, by norm_num⟩)).1,
   (c5_override_wins 10 (JVal.obj []) (JVal.str "zz") 0
      (Or.inr ⟨⟨PyErr.valueError, rfl⟩, rfl⟩)).1⟩

/-- Claim C6: a coercible total override t replaces the document total
outright, even when the computed sum differs from t; a non-coercible
override keeps the computed sum and the run does not crash. -/
theorem c6_total_override (criteria : List (String × Int))
    (evall over : List (String × JVal)) (t : JVal) (ss : List Int) (s n : Int)
    (hs : scoreCriteria criteria evall over = .ok (ss, s))
    (h : pyInt t = .ok n ∨ (∃ e, pyInt t = .error e) ∧ n = s) :
    documentTotal criteria evall over (some t) = .ok n := by
  simp only [documentTotal, hs]
  rcases h with hok | ⟨⟨e, herr⟩, rfl⟩
  · simp only [applyTotalOverride, hok]
  · simp only [applyTotalOverride, herr]

/-- Witness for C6: one criterion of weight 10 scoring 0, total override
42: the total is 42 although the per-criterion sum is 0. -/
theorem c6_total_override_witness :
    documentTotal [("a", 10)] [] [] (some (JVal.int 42)) = .ok 42 :=
  c6_total_override [("a", 10)] [] [] (JVal.int 42) [0] 0 42 rfl (Or.inl rfl)

/-- Claim C7 at its failing input (code bug): a policy whose only
criterion has the non-integer weight string abc does not fall back to the
default rubric with a warning; load_policy raises TypeError at the
comparison of the unconverted weight with 0 and the run crashes. -/
theorem c7_bad_weight_crashes :
    load_policy (some (JVal.obj [("criteria", JVal.list
        [JVal.obj [("id", JVal.str "a"), ("weight", JVal.str "abc")]])]))
      = .error .typeError := rfl

/-- Claim C9 counterexample: a present_confidence that does not coerce to
a float does not degrade to a safe default; compute_score raises
ValueError and the run fails. -/
theorem c9_coercion_raises :
    compute_score 10 (JVal.obj [("present_confidence", JVal.str "abc")])
      = .error .valueError := rfl

/-- Claim C9 amended: absent fields default to neutral values and the
engine completes whenever each of its five field coercions succeeds;
only a present ill-typed field value makes scoring raise. -/
theorem c9_welltyped_no_crash (w : Int) (kvs : List (String × JVal))
    (h1 : ∃ q, pyFloat (getD kvs "present_confidence" (JVal.int 0)) = .ok q)
    (h2 : ∃ q, avgQuoteQuality (getD kvs "quote_quality" JVal.null) = .ok q)
    (h3 : ∃ m, pyInt (getD kvs "notes_quality" (JVal.int 0)) = .ok m)
    (h4 : ∃ m, pyLen (orEmptyList (getD kvs "quotes_or_pointers" JVal.null)) = .ok m)
    (h5 : ∃ q, evTypeFactor (orEmptyList (getD kvs "evidence_type" JVal.null)) = .ok q) :
    ∃ s, compute_score w (JVal.obj kvs) = .ok s := by
  obtain ⟨pc, h1⟩ := h1
  obtain ⟨avg, h2⟩ := h2
  obtain ⟨nq, h3⟩ := h3
  obtain ⟨m, h4⟩ := h4
  obtain ⟨f, h5⟩ := h5
  by_cases hpc : pc ≤ 0
  · exact ⟨0, by simp only [compute_score, h1, if_pos hpc]⟩
  · exact ⟨_, compute_score_obj_eq w kvs pc avg nq m f h1 hpc h2 h3 h4 h5⟩

/-- Witness for the amended C9: a record with integer confidence 1 and
every other field absent scores without raising. -/
theorem c9_welltyped_no_crash_witness :
    ∃ s, compute_score 3 (JVal.obj [("present_confidence", JVal.int 1)]) = .ok s :=
  c9_welltyped_no_crash 3 [("present_confidence", JVal.int 1)]
    ⟨1, rfl⟩ ⟨0, rfl⟩ ⟨0, rfl⟩ ⟨0, rfl⟩ ⟨1 + 0 + 0 + 0, rfl⟩

/-- Claim C10: the Extended engine is a deterministic function of exactly
five signals: present_confidence, quote_quality, notes_quality, the
length of the quotes value and evidence_type membership of the three
recognised tags.  Two records agreeing on those (and differing anywhere
else, for instance in present or assessor_notes) score identically; the
engine reads no rubric setting at all, so allow_partial_scoring and
partial_ratio cannot influence it. -/
theorem c10_depends_on_five_signals (w : Int) (kvs1 kvs2 : List (String × JVal))
    (h1 : getD kvs1 "present_confidence" (JVal.int 0)
        = getD kvs2 "present_confidence" (JVal.int 0))
    (h2 : getD kvs1 "quote_quality" JVal.null = getD kvs2 "quote_quality" JVal.null)
    (h3 : getD kvs1 "notes_quality" (JVal.int 0) = getD kvs2 "notes_quality" (JVal.int 0))
    (h4 : pyLen (orEmptyList (getD kvs1 "quotes_or_pointers" JVal.null))
        = pyLen (orEmptyList (getD kvs2 "quotes_or_pointers" JVal.null)))
    (h5 : pyInStr "Empirical Data" (orEmptyList (getD kvs1 "evidence_type" JVal.null))
        = pyInStr "Empirical Data" (orEmptyList (getD kvs2 "evidence_type" JVal.null)))
    (h6 : pyInStr "Normative Claim" (orEmptyList (getD kvs1 "evidence_type" JVal.null))
        = pyInStr "Normative Claim" (orEmptyList (getD kvs2 "evidence_type" JVal.null)))
    (h7 : pyInStr "Case Study" (orEmptyList (getD kvs1 "evidence_type" JVal.null))
        = pyInStr "Case Study" (orEmptyList (getD kvs2 "evidence_type" JVal.null))) :
    compute_score w (JVal.obj kvs1) = compute_score w (JVal.obj kvs2) := by
  have hf : evTypeFactor (orEmptyList (getD kvs1 "evidence_type" JVal.null))
      = evTypeFactor (orEmptyList (getD kvs2 "evidence_type" JVal.null)) := by
    unfold evTypeFactor
    rw [h5, h6, h7]
  simp only [compute_score, h1, h2, h3, h4, hf]

/-- Witness for C10: two records sharing confidence 1 and nothing else
(one has present true, the other assessor notes) score identically. -/
theorem c10_depends_on_five_signals_witness :
    compute_score 9 (JVal.obj [("present_confidence", JVal.int 1),
        ("present", JVal.bool true)])
      = compute_score 9 (JVal.obj [("present_confidence", JVal.int 1),
        ("assessor_notes", JVal.str "long irrelevant commentary")]) :=
  c10_depends_on_five_signals 9
    [("present_confidence", JVal.int 1), ("present", JVal.bool true)]
    [("present_confidence", JVal.int 1),
     ("assessor_notes", JVal.str "long irrelevant commentary")]
    rfl rfl rfl rfl rfl rfl rfl

/-! ## Ranking lemmas -/

/-- Filtering on a total keeps insertion transparent: inserting a row and
filtering equals filtering the row consed in front (the rows skipped
before the insertion point all have strictly larger totals). -/
theorem filter_insertDesc (x : ScoreRow) (t : Int) :
    ∀ l : List ScoreRow,
      (insertDesc x l).filter (fun r => r.total_score == t)
        = (x :: l).filter (fun r => r.total_score == t)
  | [] => rfl
  | y :: ys => by
    by_cases hyx : y.total_score ≤ x.total_score
    · simp only [insertDesc, if_pos hyx]
    · simp only [insertDesc, if_neg hyx]
      cases hx : (x.total_score == t) <;> cases hy : (y.total_score == t)
      · simp [List.filter_cons, hx, hy, filter_insertDesc x t ys]
      · simp [List.filter_cons, hx, hy, filter_insertDesc x t ys]
      · simp [List.filter_cons, hx, hy, filter_insertDesc x t ys]
      · exact absurd (le_of_eq ((eq_of_beq hy).trans (eq_of_beq hx).symm)) hyx

/-- Stability of the sort: rows of any fixed total stay in input order. -/
theorem filter_rows_sorted (t : Int) :
    ∀ rows : List ScoreRow,
      (rows_sorted rows).filter (fun r => r.total_score == t)
        = rows.filter (fun r => r.total_score == t)
  | [] => rfl
  | x :: xs => by
    rw [show rows_sorted (x :: xs) = insertDesc x (rows_sorted xs) from rfl,
        filter_insertDesc]
    cases hx : (x.total_score == t) <;>
      simp [List.filter_cons, hx, filter_rows_sorted t xs]

/-- Insertion adds no row besides the inserted one. -/
theorem mem_insertDesc {z x : ScoreRow} :
    ∀ {l : List ScoreRow}, z ∈ insertDesc x l → z = x ∨ z ∈ l := by
  intro l
  induction l with
  | nil =>
    intro h
    simp only [insertDesc, List.mem_singleton] at h
    exact Or.inl h
  | cons y ys ih =>
    intro h
    by_cases hyx : y.total_score ≤ x.total_score
    · simp only [insertDesc, if_pos hyx, List.mem_cons] at h
      rcases h with h | h | h
      · exact Or.inl h
      · exact Or.inr (by simp [h])
      · exact Or.inr (List.mem_cons_of_mem y h)
    · simp only [insertDesc, if_neg hyx, List.mem_cons] at h
      rcases h with h | h
      · exact Or.inr (by simp [h])
      · rcases ih h with h | h
        · exact Or.inl h
        · exact Or.inr (List.mem_cons_of_mem y h)

/-- Insertion preserves the descending order. -/
theorem pairwise_insertDesc (x : ScoreRow) :
    ∀ {l : List ScoreRow},
      l.Pairwise (fun a b => b.total_score ≤ a.total_score) →
      (insertDesc x l).Pairwise (fun a b => b.total_score ≤ a.total_score) := by
  intro l
  induction l with
  | nil => intro _; simp [insertDesc]
  | cons y ys ih =>
    intro h
    rcases List.pairwise_cons.mp h with ⟨hy, hys⟩
    by_cases hyx : y.total_score ≤ x.total_score
    · simp only [insertDesc, if_pos hyx]
      refine List.pairwise_cons.mpr ⟨?_, h⟩
      intro z hz
      rcases List.mem_cons.mp hz with rfl | hz
      · exact hyx
      · exact le_trans (hy z hz) hyx
    · simp only [insertDesc, if_neg hyx]
      refine List.pairwise_cons.mpr ⟨?_, ih hys⟩
      intro z hz
      rcases mem_insertDesc hz with rfl | hz
      · exact le_of_not_le hyx
      · exact hy z hz

/-- The sorted row list is descending. -/
theorem pairwise_rows_sorted :
    ∀ rows : List ScoreRow,
      (rows_sorted rows).Pairwise (fun a b => b.total_score ≤ a.total_score)
  | [] => List.Pairwise.nil
  | x :: xs => pairwise_insertDesc x (pairwise_rows_sorted xs)

/-- Claim C8: the ranking is a stable descending sort on total_score:
every earlier row of the output has a total at least as large as every
later one; for each total value the rows carrying it appear exactly in
their original discovery order (filter preserved); and the selected
subset is the first five entries of that order, K equal 5. -/
theorem c8_ranking_stable_desc_top5 (rows : List ScoreRow) :
    (rows_sorted rows).Pairwise (fun a b => b.total_score ≤ a.total_score) ∧
      (∀ t : Int, (rows_sorted rows).filter (fun r => r.total_score == t)
        = rows.filter (fun r => r.total_score == t)) ∧
      top5 rows = (rows_sorted rows).take 5 :=
  ⟨pairwise_rows_sorted rows, fun t => filter_rows_sorted t rows, rfl⟩
